import Mathlib

/-!
# WP Engine Domain Monitor — verification of the core classification engine

Shallow embedding of the reconciliation core of `server.js` (and its twin
`generate-dashboard.js`): the DNS verifier, the status classifier, the
batching helper, the refresh pipeline, the override store and its read-time
projection, and the single-flight refresh protocol.

Effects are made explicit: the OS resolver becomes two functions
`aRes cRes : String → Option (List String)` (`none` models a lookup that
throws), the upstream API becomes explicit arguments, and the wall clock
becomes a `String` timestamp argument.
-/

namespace WPEMonitor

/-- JavaScript `s.endsWith(post)`, computed on the character sequence (so that
it evaluates by kernel reduction). -/
def strEndsWith (s post : String) : Bool :=
  post.data.isSuffixOf s.data

/-- JavaScript `s.startsWith(pre)`, computed on the character sequence. -/
def strStartsWith (s pre : String) : Bool :=
  pre.data.isPrefixOf s.data

/-- JavaScript `s.toUpperCase()` (ASCII range, which covers the status strings
involved), computed on the character sequence. -/
def strToUpper (s : String) : String :=
  ⟨s.data.map Char.toUpper⟩

/-- `WPE_CNAME_SUFFIXES` from the source: known provider CNAME suffixes. -/
def WPE_CNAME_SUFFIXES : List String :=
  [".wpengine.com", ".wpenginepowered.com", ".wpesvc.net", ".wpeproxy.com"]

/-- `WPE_IP_PREFIXES` from the source: known provider IP prefixes. -/
def WPE_IP_PREFIXES : List String :=
  ["141.193.213.", "35.203.43.", "172.64.80."]

/-- JavaScript string falsiness for an optional string: `undefined`/absent or
the empty string are falsy. -/
def jsFalsy : Option String → Bool
  | none => true
  | some s => s = ""

/-- The `x || null` coalescing used by the source on optional string fields:
an absent or empty string becomes `null` (here `none`). -/
def jsOrNull (s : Option String) : Option String :=
  match s with
  | none => none
  | some v => if v = "" then none else some v

/-- Result record built by `dnsLookup`: resolved A-records, resolved CNAMEs,
and the `resolved` flag. -/
structure DNSResult where
  ips : List String
  cnames : List String
  resolved : Bool
deriving DecidableEq, Repr

/-- `dnsLookup(domain)` from the source, with the resolver's behaviour made
explicit: `aRes` is the outcome of `dns.resolve4` and `cRes` the outcome of
`dns.resolveCname` (`none` = the lookup threw, `some l` = it fulfilled with
`l`).  A throw is swallowed, leaving the corresponding list empty; `resolved`
is set to `true` on any successful A lookup, and or-ed with
`cnames.length > 0` on a successful CNAME lookup. -/
def dnsLookup (aRes cRes : Option (List String)) : DNSResult :=
  let ips := aRes.getD []
  let resolvedA := aRes.isSome
  let cnames := cRes.getD []
  let resolved := resolvedA || (cRes.isSome && decide (cnames.length > 0))
  { ips := ips, cnames := cnames, resolved := resolved }

/-- `dnsPointsToWPE(dnsResult, installCname, allDomainNames)` from the source.
`installCname` is optional (the install record may lack a cname, in which case
the strict equality `c === installCname` never holds for a string `c`); the
cross-install name index is modelled as the list of names in the set (the
source always passes a real `Set`, so its `allDomainNames &&` truthiness guard
is always passed). -/
def dnsPointsToWPE (dnsResult : Option DNSResult) (installCname : Option String)
    (allDomainNames : List String) : Bool :=
  match dnsResult with
  | none => false
  | some r =>
    if !r.resolved then false
    else if decide (r.cnames.length > 0) &&
        r.cnames.any (fun c =>
          WPE_CNAME_SUFFIXES.any (fun s => strEndsWith c s) ||
          (match installCname with | some ic => c == ic | none => false)) then true
    else if decide (r.cnames.length > 0) &&
        r.cnames.any (fun c => allDomainNames.contains c) then true
    else if decide (r.ips.length > 0) &&
        r.ips.any (fun ip => WPE_IP_PREFIXES.any (fun p => strStartsWith ip p)) then true
    else false

/-- A raw domain record as consumed by `determineDomainStatus`, with the
optional-chaining paths of the source flattened into optional fields:
`network_status` is `network_details?.network_info?.status`,
`ssl_status` is `network_details?.network_info?.ssl?.status`,
`dns_cname` is `network_details?.dns_config_info?.cname` and
`dns_a_records` is `network_details?.dns_config_info?.a_records`
(`none` whenever any link of the chain is absent). -/
structure Domain where
  name : String
  id : String
  primary : Bool
  network_type : Option String
  redirect_to : Option String
  network_status : Option String
  ssl_status : Option String
  dns_cname : Option String
  dns_a_records : Option (List String)
deriving DecidableEq, Repr

/-- The provider-internal ("system") name test used throughout the source. -/
def isSystemName (name : String) : Bool :=
  strEndsWith name ".wpenginepowered.com" || strEndsWith name ".wpengine.com"

/-- `determineDomainStatus(domain, dnsResult, installCname, allDomainNames)`
from the source: the core classifier, returning `(status, detail)`. -/
def determineDomainStatus (domain : Domain) (dnsResult : Option DNSResult)
    (installCname : Option String) (allDomainNames : List String) : String × String :=
  if isSystemName domain.name then ("system", "System domain")
  else
    let networkStatus := domain.network_status.map strToUpper
    let expectedCname := jsOrNull domain.dns_cname
    let expectedARecords := domain.dns_a_records.getD []
    let dnsMatches := dnsPointsToWPE dnsResult installCname allDomainNames
    let dnsMatchesExpected :=
      match dnsResult with
      | some r =>
        decide (r.ips.length > 0) && decide (expectedARecords.length > 0) &&
          r.ips.any (fun ip => expectedARecords.contains ip)
      | none => false
    let cnameMatchesExpected :=
      match dnsResult, expectedCname with
      | some r, some ec =>
        decide (r.cnames.length > 0) && r.cnames.any (fun c => c == ec)
      | _, _ => false
    if networkStatus == some "ACTIVE" then
      if dnsMatches || dnsMatchesExpected || cnameMatchesExpected then
        ("good", "Active & DNS pointed")
      else
        match dnsResult with
        | some r => if r.resolved then ("issue", "DNS not pointed to WPE")
                    else ("issue", "DNS not resolving")
        | none => ("good", "Active (API)")
    else if networkStatus == some "PENDING" then ("pending", "Pending setup")
    else if networkStatus == some "DELETED" then ("issue", "Network deleted")
    else if jsFalsy networkStatus then
      if dnsMatches then ("good", "DNS pointed (Legacy)")
      else
        match dnsResult with
        | some r => if r.resolved then ("issue", "DNS not pointed to WPE")
                    else ("issue", "DNS not resolving")
        | none => ("unknown", "No status data")
    else
      ("unknown", match networkStatus with
        | some s => if s = "" then "Unknown" else s
        | none => "Unknown")

/-- `batchAsync(items, concurrency, fn)` from the source, for an effect-free
`fn` (a pure function, so each batch's `Promise.all` simply maps `fn` over the
batch and concatenates in input order).  The `concurrency = 0` guard makes the
function total in Lean; the source's loop would not terminate there, and the
claims only concern `concurrency ≥ 1`. -/
def batchAsync (items : List α) (concurrency : Nat) (fn : α → β) : List β :=
  match items with
  | [] => []
  | a :: rest =>
    if concurrency = 0 then []
    else
      ((a :: rest).take concurrency).map fn ++
        batchAsync ((a :: rest).drop concurrency) concurrency fn
termination_by items.length
decreasing_by
  have hc : 0 < concurrency := Nat.pos_of_ne_zero (by assumption)
  simpa [List.length_drop] using Nat.sub_lt (Nat.succ_pos rest.length) hc

/-- An install record (the fields of `install` read by the pipeline). -/
structure Install where
  id : String
  name : String
  environment : Option String
  primary_domain : Option String
  cname : Option String
  php_version : Option String
deriving DecidableEq, Repr

/-- A classified domain as built by the pipeline's enrichment step.  The
fields `originalStatus`, `originalDetail` and `confirmedAt` are absent
(`none`) until `applyConfirmedOverrides` adds them. -/
structure EnrichedDomain where
  name : String
  id : String
  primary : Bool
  network_type : String
  redirect_to : Option String
  isSystem : Bool
  dns : Option DNSResult
  status : String
  detail : String
  sslStatus : Option String
  expectedCname : Option String
  expectedARecords : List String
  originalStatus : Option String
  originalDetail : Option String
  confirmedAt : Option String
deriving DecidableEq, Repr

/-- A per-site entry of the snapshot.  `confirmedCount` is absent (`none`)
until `applyConfirmedOverrides` adds it. -/
structure Site where
  name : String
  id : String
  environment : Option String
  primary_domain : Option String
  cname : Option String
  php_version : Option String
  domains : List EnrichedDomain
  issueCount : Nat
  pendingCount : Nat
  confirmedCount : Option Nat
deriving DecidableEq, Repr

/-- The statistics rollup of a snapshot.  `confirmed` is absent (`none`)
until `applyConfirmedOverrides` adds it. -/
structure Stats where
  totalSites : Nat
  totalDomains : Nat
  customDomains : Nat
  good : Nat
  issues : Nat
  pending : Nat
  confirmed : Option Nat
  timestamp : String
deriving DecidableEq, Repr

/-- A full snapshot (`cachedData` contents). -/
structure SnapshotData where
  sites : List Site
  stats : Stats
deriving DecidableEq, Repr

/-- The install/domain pairs fetched at the start of a refresh
(`installDomains` in the source); the per-install domain fetch fails soft to
`[]`, which is folded into the `fetchDomains` argument. -/
def installDomainsOf (installs : List Install) (fetchDomains : String → List Domain) :
    List (Install × List Domain) :=
  installs.map (fun inst => (inst, fetchDomains inst.id))

/-- The cross-install domain-name index (`allDomainNames` in the source, a
`Set` modelled by the list of inserted names). -/
def allDomainNamesOf (installDomains : List (Install × List Domain)) : List String :=
  installDomains.flatMap (fun p => p.2.map (fun d => d.name))

/-- `allCustomDomains` in the source: every non-system domain, in traversal
order. -/
def allCustomDomainsOf (installDomains : List (Install × List Domain)) : List Domain :=
  installDomains.flatMap (fun p => p.2.filter (fun d => !isSystemName d.name))

/-- The `dnsResults` map built by the DNS stage, as a lookup by domain id:
each custom domain `d` stores `dnsLookup(d.name)` under key `d.id`, so the
stored value for an id is the lookup of the last custom domain written with
that id, and ids never written map to `null` (`dnsResults[d.id] || null`). -/
def dnsResultsOf (installDomains : List (Install × List Domain))
    (aRes cRes : String → Option (List String)) (i : String) : Option DNSResult :=
  ((allCustomDomainsOf installDomains).reverse.find? (fun d => d.id == i)).map
    (fun d => dnsLookup (aRes d.name) (cRes d.name))

/-- The enrichment of one raw domain inside `refreshData`'s `siteData` map. -/
def enrichDomain (d : Domain) (dnsResult : Option DNSResult)
    (installCname : Option String) (allDomainNames : List String) : EnrichedDomain :=
  let st := determineDomainStatus d dnsResult installCname allDomainNames
  { name := d.name, id := d.id, primary := d.primary,
    network_type := (jsOrNull d.network_type).getD "",
    redirect_to := d.redirect_to,
    isSystem := isSystemName d.name,
    dns := dnsResult,
    status := st.1, detail := st.2,
    sslStatus := jsOrNull d.ssl_status,
    expectedCname := jsOrNull d.dns_cname,
    expectedARecords := d.dns_a_records.getD [],
    originalStatus := none, originalDetail := none, confirmedAt := none }

/-- One entry of `siteData` inside `refreshData`. -/
def buildSite (inst : Install) (domains : List Domain)
    (dnsResults : String → Option DNSResult) (allDomainNames : List String) : Site :=
  let enrichedDomains := domains.map
    (fun d => enrichDomain d (dnsResults d.id) inst.cname allDomainNames)
  let custom := enrichedDomains.filter (fun d => !d.isSystem)
  { name := inst.name, id := inst.id, environment := inst.environment,
    primary_domain := inst.primary_domain, cname := inst.cname,
    php_version := inst.php_version, domains := enrichedDomains,
    issueCount := (custom.filter (fun d => d.status == "issue")).length,
    pendingCount := (custom.filter (fun d => d.status == "pending")).length,
    confirmedCount := none }

/-- The successful body of `refreshData`: fetch domains per install, build the
name index, run DNS lookups over the custom domains, classify, and aggregate
the snapshot. -/
def runPipeline (installs : List Install) (fetchDomains : String → List Domain)
    (aRes cRes : String → Option (List String)) (timestamp : String) : SnapshotData :=
  let installDomains := installDomainsOf installs fetchDomains
  let allDomainNames := allDomainNamesOf installDomains
  let dnsResults := dnsResultsOf installDomains aRes cRes
  let siteData := installDomains.map (fun p => buildSite p.1 p.2 dnsResults allDomainNames)
  let allDomains := siteData.flatMap (fun s => s.domains)
  let customDomains := allDomains.filter (fun d => !d.isSystem)
  { sites := siteData,
    stats := { totalSites := installs.length,
               totalDomains := allDomains.length,
               customDomains := customDomains.length,
               good := (customDomains.filter (fun d => d.status == "good")).length,
               issues := (customDomains.filter (fun d => d.status == "issue")).length,
               pending := (customDomains.filter (fun d => d.status == "pending")).length,
               confirmed := none,
               timestamp := timestamp } }

/-- `refreshData` on the path that actually starts a pipeline (the in-flight
waiting path is modelled separately by the single-flight transition system).
`installsResult` is the outcome of `fetchAllInstalls()`; on a throw the
`try`/`finally` leaves `cachedData` (passed in as `prevCache`) untouched and
propagates the error, otherwise the new snapshot is computed and becomes the
cache.  Returns (caller-visible outcome, resulting `cachedData`). -/
def refreshData (installsResult : Except String (List Install))
    (fetchDomains : String → List Domain) (aRes cRes : String → Option (List String))
    (timestamp : String) (prevCache : Option SnapshotData) :
    Except String SnapshotData × Option SnapshotData :=
  match installsResult with
  | .error e => (.error e, prevCache)
  | .ok installs =>
    let snap := runPipeline installs fetchDomains aRes cRes timestamp
    (.ok snap, some snap)

/-- The `confirmedDomains` store: a finite map from domain name to the
`confirmedAt` timestamp, in a canonical duplicate-free representation
(`confirmedDomains[domain] = {confirmedAt}` replaces any previous entry). -/
abbrev ConfirmedStore := List (String × String)

/-- `confirmedDomains[name]`, yielding the `confirmedAt` value if present. -/
def lookupConfirmed (s : ConfirmedStore) (name : String) : Option String :=
  (s.find? (fun p => p.1 == name)).map (fun p => p.2)

/-- The store mutation of `POST /api/confirm`:
`confirmedDomains[domain] = { confirmedAt: now }`. -/
def confirmDomain (domain confirmedAt : String) (s : ConfirmedStore) : ConfirmedStore :=
  (domain, confirmedAt) :: s.filter (fun p => p.1 != domain)

/-- The store mutation of `DELETE /api/confirm`:
`delete confirmedDomains[domain]`. -/
def unconfirmDomain (domain : String) (s : ConfirmedStore) : ConfirmedStore :=
  s.filter (fun p => p.1 != domain)

/-- Response of the confirm/unconfirm endpoints: either the 400
"domain is required" rejection or the `{ok: true, domain, confirmed}` body. -/
inductive ConfirmResp where
  | badRequest (msg : String)
  | ok (domain : String) (confirmed : Bool)
deriving DecidableEq, Repr

/-- `POST /api/confirm` handler: rejects a missing (or JS-falsy, i.e. empty)
domain, otherwise stores the override and persists. -/
def postConfirm (body : Option String) (now : String) (s : ConfirmedStore) :
    ConfirmedStore × ConfirmResp :=
  match body with
  | none => (s, .badRequest "domain is required")
  | some d =>
    if d = "" then (s, .badRequest "domain is required")
    else (confirmDomain d now s, .ok d true)

/-- `DELETE /api/confirm` handler. -/
def deleteConfirm (body : Option String) (s : ConfirmedStore) :
    ConfirmedStore × ConfirmResp :=
  match body with
  | none => (s, .badRequest "domain is required")
  | some d =>
    if d = "" then (s, .badRequest "domain is required")
    else (unconfirmDomain d s, .ok d false)

/-- The per-domain rewrite inside `applyConfirmedOverrides`. -/
def projectDomain (confirmed : ConfirmedStore) (d : EnrichedDomain) : EnrichedDomain :=
  if d.status == "issue" then
    match lookupConfirmed confirmed d.name with
    | some at_ =>
      { d with
        status := "confirmed", originalStatus := some "issue",
        originalDetail := some d.detail, detail := "Confirmed OK",
        confirmedAt := some at_ }
    | none => d
  else d

/-- The per-site rewrite inside `applyConfirmedOverrides`. -/
def projectSite (confirmed : ConfirmedStore) (site : Site) : Site :=
  let domains := site.domains.map (projectDomain confirmed)
  let custom := domains.filter (fun d => !d.isSystem)
  { site with
    domains := domains,
    issueCount := (custom.filter (fun d => d.status == "issue")).length,
    confirmedCount := some (custom.filter (fun d => d.status == "confirmed")).length }

/-- `applyConfirmedOverrides(data)` from the source: the read-time projection
of the override store over a snapshot.  Pure — the stored snapshot is never
mutated. -/
def applyConfirmedOverrides (confirmed : ConfirmedStore) (data : SnapshotData) :
    SnapshotData :=
  let sites := data.sites.map (projectSite confirmed)
  let allDomains := sites.flatMap (fun s => s.domains)
  let customDomains := allDomains.filter (fun d => !d.isSystem)
  { sites := sites,
    stats := { data.stats with
      good := (customDomains.filter (fun d => d.status == "good")).length,
      issues := (customDomains.filter (fun d => d.status == "issue")).length,
      confirmed := some (customDomains.filter (fun d => d.status == "confirmed")).length,
      pending := (customDomains.filter (fun d => d.status == "pending")).length } }

/-- `GET /api/data`: serves the projected cache, or the empty
`{sites: [], stats: null}` body (modelled by `none`) before the first
refresh. -/
def apiData (confirmed : ConfirmedStore) (cache : Option SnapshotData) :
    Option SnapshotData :=
  cache.map (applyConfirmedOverrides confirmed)

/-!
## Single-flight refresh protocol

`refreshData` begins with a synchronous block — it reads `isRefreshing` and,
when clear, sets it, all before its first `await` — so on the JS event loop
check-and-set is one atomic step.  A caller that finds the flag set enters the
`setInterval` polling loop, re-checking the flag at each tick and returning
`cachedData` once it observes the flag clear; the runner performs its pipeline
across several `await` points, then (in one synchronous block) stores the new
snapshot in `cachedData`, and its `finally` clears the flag before the caller
resumes.  The model below is that event-loop execution for two concurrent
callers: a scheduler interleaves atomic steps of the two tasks; `pipeLen` is
the number of internal suspension points of the pipeline and `r` the snapshot
it produces. -/

/-- The continuation state of one `refreshData` caller. -/
inductive TaskState (σ : Type) where
  | start
  | running (n : Nat)
  | waiting
  | done (result : Option σ)
deriving DecidableEq, Repr

/-- Shared process state plus the two callers' continuations.  `execCount`
is a ghost counter of pipeline starts. -/
structure FlightState (σ : Type) where
  isRefreshing : Bool
  cachedData : Option σ
  execCount : Nat
  taskA : TaskState σ
  taskB : TaskState σ
deriving DecidableEq, Repr

/-- One atomic event-loop step of a single task. -/
def stepTask (pipeLen : Nat) (r : σ) (g : FlightState σ) (t : TaskState σ) :
    FlightState σ × TaskState σ :=
  match t with
  | .start =>
    if g.isRefreshing then (g, .waiting)
    else ({ g with isRefreshing := true, execCount := g.execCount + 1 }, .running pipeLen)
  | .running (n + 1) => (g, .running n)
  | .running 0 =>
    ({ g with cachedData := some r, isRefreshing := false }, .done (some r))
  | .waiting =>
    if g.isRefreshing then (g, .waiting) else (g, .done g.cachedData)
  | .done res => (g, .done res)

/-- Step the task selected by the scheduler choice (`true` = caller A). -/
def stepOn (pipeLen : Nat) (r : σ) (g : FlightState σ) (choose : Bool) : FlightState σ :=
  if choose then
    let p := stepTask pipeLen r g g.taskA
    { p.1 with taskA := p.2, taskB := g.taskB }
  else
    let p := stepTask pipeLen r g g.taskB
    { p.1 with taskA := g.taskA, taskB := p.2 }

/-- Run a schedule of interleaving choices. -/
def runFlight (pipeLen : Nat) (r : σ) (g : FlightState σ) (sched : List Bool) :
    FlightState σ :=
  sched.foldl (stepOn pipeLen r) g

/-- Initial state: cache `c₀`, no refresh in flight, both callers invoked. -/
def initFlight (c₀ : Option σ) : FlightState σ :=
  { isRefreshing := false, cachedData := c₀, execCount := 0,
    taskA := .start, taskB := .start }

/-- Two *simultaneous* calls: each async call runs its synchronous prefix
(the check-and-set block) before any pipeline progress, in either order
(`first` = which caller's prefix runs first). -/
def bothStarted (pipeLen : Nat) (r : σ) (c₀ : Option σ) (first : Bool) : FlightState σ :=
  stepOn pipeLen r (stepOn pipeLen r (initFlight c₀) first) (!first)

/-- Invariant of the two-caller single-flight protocol once both calls have
run their synchronous check-and-set prefixes: exactly one pipeline has been
started; either it is still in flight (flag set, cache untouched, one runner,
the other poller waiting) or it has committed (flag clear, cache holds the new
snapshot, the runner returned it, the other caller waiting or returned it
too). -/
def flightInv (r : σ) (c₀ : Option σ) (g : FlightState σ) : Prop :=
  g.execCount = 1 ∧
  ((g.isRefreshing = true ∧ g.cachedData = c₀ ∧
      (((∃ n, g.taskA = .running n) ∧ g.taskB = .waiting) ∨
       ((∃ n, g.taskB = .running n) ∧ g.taskA = .waiting))) ∨
   (g.isRefreshing = false ∧ g.cachedData = some r ∧
      ((g.taskA = .done (some r) ∧ (g.taskB = .waiting ∨ g.taskB = .done (some r))) ∨
       (g.taskB = .done (some r) ∧ (g.taskA = .waiting ∨ g.taskA = .done (some r))))))

/-!
## Sample records used to instantiate the theorems on concrete inputs
-/

/-- A sample install. -/
def cInstall : Install :=
  { id := "i1", name := "site-one", environment := some "production",
    primary_domain := some "c.example.com", cname := some "siteone.wpengine.com",
    php_version := some "8.2" }

/-- A sample legacy domain (no provider network record). -/
def cDomain : Domain :=
  { name := "c.example.com", id := "d1", primary := true, network_type := none,
    redirect_to := none, network_status := none, ssl_status := none,
    dns_cname := none, dns_a_records := none }

/-- A sample classified domain carrying an `issue` verdict. -/
def wDomain : EnrichedDomain :=
  { name := "w.example.com", id := "d9", primary := true, network_type := "",
    redirect_to := none, isSystem := false, dns := some ⟨[], [], false⟩,
    status := "issue", detail := "DNS not resolving", sslStatus := none,
    expectedCname := none, expectedARecords := [],
    originalStatus := none, originalDetail := none, confirmedAt := none }

/-- A sample site containing `wDomain`. -/
def wSite : Site :=
  { name := "site-w", id := "i9", environment := some "production",
    primary_domain := some "w.example.com", cname := some "sitew.wpengine.com",
    php_version := none, domains := [wDomain], issueCount := 1, pendingCount := 0,
    confirmedCount := none }

/-- A sample snapshot containing `wSite`. -/
def wData : SnapshotData :=
  { sites := [wSite],
    stats := { totalSites := 1, totalDomains := 1, customDomains := 1,
               good := 0, issues := 1, pending := 0, confirmed := none,
               timestamp := "2026-01-01T00:00:00Z" } }

/-!
## Helper lemmas
-/

/-- A `length > 0` guard in front of `List.any` is redundant. -/
theorem decide_length_pos_and_any (l : List α) (p : α → Bool) :
    (decide (l.length > 0) && l.any p) = l.any p := by
  cases h : l.any p with
  | false => simp [h]
  | true =>
    obtain ⟨c, hc, _⟩ := List.any_eq_true.mp h
    have hl : l ≠ [] := by rintro rfl; simp at hc
    simp [h, List.length_pos.mpr hl]

/-- Both `length > 0` guards of the expected-A-record check are redundant. -/
theorem decide_length_pos_and_contains (l exp : List String) :
    (decide (l.length > 0) && decide (exp.length > 0) &&
        l.any (fun ip => exp.contains ip))
      = l.any (fun ip => exp.contains ip) := by
  cases h : l.any (fun ip => exp.contains ip) with
  | false => simp [h]
  | true =>
    obtain ⟨ip, hip, hc⟩ := List.any_eq_true.mp h
    have h2 : exp ≠ [] := by
      rintro rfl
      simp [List.contains_eq_any_beq] at hc
    have hl : l ≠ [] := by rintro rfl; simp at hip
    simp [h, List.length_pos.mpr hl, List.length_pos.mpr h2]

/-- `List.any` distributes over a pointwise disjunction. -/
theorem list_any_or_distrib (l : List α) (p q : α → Bool) :
    (l.any fun x => p x || q x) = (l.any p || l.any q) := by
  induction l with
  | nil => rfl
  | cons a t ih => cases hp : p a <;> cases hq : q a <;> simp [hp, hq, ih]

/-- The classifier on a legacy domain whose DNS lookup failed entirely. -/
theorem determineDomainStatus_legacy_unresolved (d : Domain) (ic : Option String)
    (idx : List String) (hsys : isSystemName d.name = false)
    (hns : d.network_status = none) :
    determineDomainStatus d (some ⟨[], [], false⟩) ic idx
      = ("issue", "DNS not resolving") := by
  simp [determineDomainStatus, hsys, hns, dnsPointsToWPE, jsFalsy]

/-- Looking up a domain right after confirming it yields its timestamp. -/
theorem lookupConfirmed_confirm_self (x t : String) (s : ConfirmedStore) :
    lookupConfirmed (confirmDomain x t s) x = some t := by
  simp [lookupConfirmed, confirmDomain, List.find?]

/-- Looking up a domain right after unconfirming it yields nothing. -/
theorem lookupConfirmed_unconfirm_self (x : String) (s : ConfirmedStore) :
    lookupConfirmed (unconfirmDomain x s) x = none := by
  simp only [lookupConfirmed, unconfirmDomain, Option.map_eq_none']
  rw [List.find?_eq_none]
  intro p hp
  have := (List.mem_filter.mp hp).2
  simpa [bne] using this

/-- Both simultaneous callers' synchronous prefixes establish the
single-flight invariant. -/
theorem flightInv_bothStarted (pipeLen : Nat) (r : σ) (c₀ : Option σ) (first : Bool) :
    flightInv r c₀ (bothStarted pipeLen r c₀ first) := by
  cases first <;>
    simp [bothStarted, stepOn, stepTask, initFlight, flightInv]

/-- Every atomic event-loop step preserves the single-flight invariant. -/
theorem flightInv_step (pipeLen : Nat) (r : σ) (c₀ : Option σ) (g : FlightState σ)
    (choose : Bool) (h : flightInv r c₀ g) :
    flightInv r c₀ (stepOn pipeLen r g choose) := by
  rcases h with ⟨hexec,
    ⟨hflag, hcache, ⟨⟨n, hA⟩, hB⟩ | ⟨⟨n, hB⟩, hA⟩⟩ |
    ⟨hflag, hcache, ⟨hA, hB | hB⟩ | ⟨hB, hA | hA⟩⟩⟩ <;>
  cases choose <;>
  first
    | (cases n <;> simp_all [stepOn, stepTask, flightInv])
    | simp_all [stepOn, stepTask, flightInv]

/-- Running any schedule from an invariant state stays in the invariant. -/
theorem flightInv_runFlight (pipeLen : Nat) (r : σ) (c₀ : Option σ)
    (g : FlightState σ) (sched : List Bool) (h : flightInv r c₀ g) :
    flightInv r c₀ (runFlight pipeLen r g sched) := by
  induction sched generalizing g with
  | nil => exact h
  | cons c cs ih => exact ih _ (flightInv_step pipeLen r c₀ g c h)

/-!
## Claim theorems
-/

/-- C3: for every domain whose name does not end in a provider-internal
suffix and whose declared network status is `PENDING` (case-insensitive),
the classifier returns `pending` with reason "Pending setup" for every
possible `DNSResult` — including one that matches the provider fingerprint —
and for an absent `DNSResult`. -/
theorem pending_ignores_dns (d : Domain) (r : Option DNSResult)
    (ic : Option String) (idx : List String)
    (hsys : isSystemName d.name = false)
    (hpend : d.network_status.map strToUpper = some "PENDING") :
    determineDomainStatus d r ic idx = ("pending", "Pending setup") := by
  simp [determineDomainStatus, hsys, hpend]

/-- C3 witness: a `PENDING` (declared as lowercase `pending`) custom domain
whose DNS result *would* match the provider fingerprint is still classified
`pending`. -/
theorem pending_ignores_dns_witness :
    isSystemName "b.example.com" = false ∧
    ({ name := "b.example.com", id := "d2", primary := true, network_type := none,
       redirect_to := none, network_status := some "pending", ssl_status := none,
       dns_cname := none, dns_a_records := none } : Domain).network_status.map strToUpper
      = some "PENDING" ∧
    dnsPointsToWPE (some ⟨["141.193.213.10"], ["x.wpengine.com"], true⟩)
      (some "siteb.wpengine.com") [] = true ∧
    determineDomainStatus
      { name := "b.example.com", id := "d2", primary := true, network_type := none,
        redirect_to := none, network_status := some "pending", ssl_status := none,
        dns_cname := none, dns_a_records := none }
      (some ⟨["141.193.213.10"], ["x.wpengine.com"], true⟩)
      (some "siteb.wpengine.com") [] = ("pending", "Pending setup") :=
  ⟨by decide, by decide, by decide,
    pending_ignores_dns _ _ _ _ (by decide) (by decide)⟩

/-- C10: for every item list, every concurrency bound `n ≥ 1` and every
effect-free per-item function, `batchAsync` returns exactly the sequential
map of the function over the items, in input order, independently of the
concurrency bound. -/
theorem batchAsync_eq_map (items : List α) (concurrency : Nat) (fn : α → β)
    (h : 1 ≤ concurrency) : batchAsync items concurrency fn = items.map fn := by
  have hc : concurrency ≠ 0 := by omega
  generalize hl : items.length = n
  induction n using Nat.strong_induction_on generalizing items with
  | _ n ih =>
    cases items with
    | nil => simp [batchAsync]
    | cons a rest =>
      rw [batchAsync, if_neg hc]
      have hlt : ((a :: rest).drop concurrency).length < n := by
        subst hl
        simp only [List.length_drop, List.length_cons]
        omega
      rw [ih _ hlt _ rfl, ← List.map_append, List.take_append_drop]

/-- C10 witness: `batchAsync` over a five-element list with concurrency 2
equals the sequential map. -/
theorem batchAsync_eq_map_witness :
    1 ≤ 2 ∧ batchAsync [1, 2, 3, 4, 5] 2 (fun x => x + 10) = [11, 12, 13, 14, 15] :=
  ⟨by decide,
    (batchAsync_eq_map [1, 2, 3, 4, 5] 2 (fun x => x + 10) (by decide)).trans (by decide)⟩

/-- C5: for every (nonempty) domain name and starting override store,
confirming twice yields the same store as a single confirm (the wall clock
being an explicit argument, the result equals a single confirm performed at
the second call's time); unconfirming a never-confirmed name leaves the store
unchanged and responds `ok`, not an error. -/
theorem confirm_idempotent_unconfirm_noop (x t₁ t₂ : String) (s : ConfirmedStore)
    (hx : x ≠ "") :
    (postConfirm (some x) t₂ (postConfirm (some x) t₁ s).1).1
        = (postConfirm (some x) t₂ s).1 ∧
    (lookupConfirmed s x = none → (deleteConfirm (some x) s).1 = s) ∧
    (deleteConfirm (some x) s).2 = ConfirmResp.ok x false := by
  refine ⟨?_, ?_, ?_⟩
  · simp [postConfirm, hx, confirmDomain, List.filter_filter]
  · intro h
    simp only [lookupConfirmed, Option.map_eq_none'] at h
    simp only [deleteConfirm, if_neg hx, unconfirmDomain]
    exact List.filter_eq_self.mpr fun p hp => by
      simpa [bne] using List.find?_eq_none.mp h p hp
  · simp [deleteConfirm, hx]

/-- C5 witness: instantiated on the empty store with a concrete name. -/
theorem confirm_idempotent_unconfirm_noop_witness :
    "a.example.com" ≠ "" ∧
    ((postConfirm (some "a.example.com") "t2"
        (postConfirm (some "a.example.com") "t1" []).1).1
      = (postConfirm (some "a.example.com") "t2" []).1 ∧
     (lookupConfirmed [] "a.example.com" = none →
        (deleteConfirm (some "a.example.com") []).1 = []) ∧
     (deleteConfirm (some "a.example.com") []).2
        = ConfirmResp.ok "a.example.com" false) :=
  ⟨by decide, confirm_idempotent_unconfirm_noop "a.example.com" "t1" "t2" [] (by decide)⟩

/-- C7: if the install listing fails during a `refreshData` call that starts a
pipeline, the error is propagated to the caller, the live cache is exactly the
previous one, and `/api/data` still serves the projection of the previous
complete snapshot. -/
theorem refresh_failure_preserves_cache (e : String)
    (fetchDomains : String → List Domain) (aRes cRes : String → Option (List String))
    (ts : String) (prev : Option SnapshotData) (confirmed : ConfirmedStore) :
    (refreshData (.error e) fetchDomains aRes cRes ts prev).1 = .error e ∧
    (refreshData (.error e) fetchDomains aRes cRes ts prev).2 = prev ∧
    apiData confirmed (refreshData (.error e) fetchDomains aRes cRes ts prev).2
      = prev.map (applyConfirmedOverrides confirmed) :=
  ⟨rfl, rfl, rfl⟩

/-- C1: for every non-system domain declared `ACTIVE` (case-insensitive), the
classifier returns `good`/"Active & DNS pointed" exactly when the fingerprint
match succeeds, or the resolved A-records intersect the expected A-record
list, or a resolved CNAME equals the expected CNAME; otherwise a present
resolved `DNSResult` gives `issue`/"DNS not pointed to WPE", a present
unresolved one gives `issue`/"DNS not resolving", and an absent one gives
`good`/"Active (API)". -/
theorem active_status_classification (d : Domain) (r : Option DNSResult)
    (ic : Option String) (idx : List String)
    (hsys : isSystemName d.name = false)
    (hact : d.network_status.map strToUpper = some "ACTIVE") :
    determineDomainStatus d r ic idx =
      if dnsPointsToWPE r ic idx
          || (match r with
              | some res => res.ips.any (fun ip => (d.dns_a_records.getD []).contains ip)
              | none => false)
          || (match r, jsOrNull d.dns_cname with
              | some res, some ec => res.cnames.any (fun c => c == ec)
              | _, _ => false) then
        ("good", "Active & DNS pointed")
      else
        match r with
        | some res =>
          if res.resolved then ("issue", "DNS not pointed to WPE")
          else ("issue", "DNS not resolving")
        | none => ("good", "Active (API)") := by
  cases r with
  | none => simp [determineDomainStatus, hsys, hact, dnsPointsToWPE]
  | some res =>
    simp only [determineDomainStatus, hsys, Bool.false_eq_true, if_false, hact]
    rw [decide_length_pos_and_contains]
    cases hec : jsOrNull d.dns_cname with
    | none => simp
    | some ec => simp [decide_length_pos_and_any]

/-- C1 witness: an `ACTIVE` (declared lowercase `active`) domain whose
resolved A-record appears in the provider's expected A-record list is
classified `good`/"Active & DNS pointed". -/
theorem active_status_classification_witness :
    isSystemName "a.example.com" = false ∧
    ({ name := "a.example.com", id := "d3", primary := true, network_type := none,
       redirect_to := none, network_status := some "active", ssl_status := none,
       dns_cname := none,
       dns_a_records := some ["203.0.113.5"] } : Domain).network_status.map strToUpper
      = some "ACTIVE" ∧
    determineDomainStatus
      { name := "a.example.com", id := "d3", primary := true, network_type := none,
        redirect_to := none, network_status := some "active", ssl_status := none,
        dns_cname := none, dns_a_records := some ["203.0.113.5"] }
      (some ⟨["203.0.113.5"], [], true⟩) (some "sitea.wpengine.com") []
      = ("good", "Active & DNS pointed") :=
  ⟨by decide, by decide,
    (active_status_classification _ _ _ _ (by decide) (by decide)).trans (by decide)⟩

/-- C8: for every `DNSResult` (which, per the data model, has empty record
lists whenever `resolved` is false — an invariant every `dnsLookup` output
satisfies), `dnsPointsToWPE` returns `true` iff the logical OR of the four
conditions holds: a CNAME ends with a provider suffix, a CNAME equals the
install's canonical CNAME, a CNAME is in the cross-install name index, or an
A-record starts with a provider IP prefix — so the source's evaluation order
and short-circuiting never affect the result. -/
theorem dnsPointsToWPE_is_disjunction (res : DNSResult) (ic : Option String)
    (idx : List String)
    (hinv : res.resolved = false → res.ips = [] ∧ res.cnames = []) :
    dnsPointsToWPE (some res) ic idx =
      (res.cnames.any (fun c => WPE_CNAME_SUFFIXES.any (fun s => strEndsWith c s))
        || res.cnames.any (fun c => match ic with | some v => c == v | none => false)
        || res.cnames.any (fun c => idx.contains c)
        || res.ips.any (fun ip => WPE_IP_PREFIXES.any (fun p => strStartsWith ip p))) := by
  cases hres : res.resolved with
  | false =>
    obtain ⟨h1, h2⟩ := hinv hres
    simp [dnsPointsToWPE, hres, h1, h2]
  | true =>
    simp only [dnsPointsToWPE, hres, Bool.not_true, Bool.false_eq_true, if_false,
      decide_length_pos_and_any]
    simp only [list_any_or_distrib]
    cases h1 : res.cnames.any (fun c => WPE_CNAME_SUFFIXES.any (fun s => strEndsWith c s)) <;>
    cases h2 : res.cnames.any (fun c => match ic with | some v => c == v | none => false) <;>
    cases h3 : res.cnames.any (fun c => idx.contains c) <;>
    cases h4 : res.ips.any (fun ip => WPE_IP_PREFIXES.any (fun p => strStartsWith ip p)) <;>
    simp [h1, h2, h3, h4]

/-- C8 witness: a resolved result whose only match is the cross-install index
(a CNAME to another managed domain) satisfies the disjunction equation. -/
theorem dnsPointsToWPE_is_disjunction_witness :
    ((⟨["198.51.100.7"], ["other.managed.example"], true⟩ : DNSResult).resolved = false →
      (⟨["198.51.100.7"], ["other.managed.example"], true⟩ : DNSResult).ips = [] ∧
      (⟨["198.51.100.7"], ["other.managed.example"], true⟩ : DNSResult).cnames = []) ∧
    dnsPointsToWPE (some ⟨["198.51.100.7"], ["other.managed.example"], true⟩)
        (some "sitez.wpengine.com") ["other.managed.example"] =
      ((⟨["198.51.100.7"], ["other.managed.example"], true⟩ : DNSResult).cnames.any
          (fun c => WPE_CNAME_SUFFIXES.any (fun s => strEndsWith c s))
        || (⟨["198.51.100.7"], ["other.managed.example"], true⟩ : DNSResult).cnames.any
          (fun c => match some "sitez.wpengine.com" with | some v => c == v | none => false)
        || (⟨["198.51.100.7"], ["other.managed.example"], true⟩ : DNSResult).cnames.any
          (fun c => List.contains ["other.managed.example"] c)
        || (⟨["198.51.100.7"], ["other.managed.example"], true⟩ : DNSResult).ips.any
          (fun ip => WPE_IP_PREFIXES.any (fun p => strStartsWith ip p))) :=
  ⟨by decide,
    dnsPointsToWPE_is_disjunction ⟨["198.51.100.7"], ["other.managed.example"], true⟩
      (some "sitez.wpengine.com") ["other.managed.example"] (by decide)⟩

/-- C9 counterexample: if the A-record lookup fulfills with an *empty* list
(a resolver behaviour the claim's quantification admits), `dnsLookup` marks
the result `resolved` even though both record lists are empty, refuting
"resolved iff some list is non-empty" as universally stated. -/
theorem dnsLookup_resolved_iff_counterexample :
    (dnsLookup (some []) none).resolved = true ∧
    (dnsLookup (some []) none).ips = [] ∧
    (dnsLookup (some []) none).cnames = [] := by
  decide

/-- C9 (amended): for every resolver behaviour in which a successful A-record
lookup returns at least one record (`aRes ≠ some []` — the contract of the
`dns.promises` resolver, which rejects instead of fulfilling empty), the
`DNSResult` returned by `dnsLookup` has `resolved` true iff its A-record list
or its CNAME list is non-empty. -/
theorem dnsLookup_resolved_iff (aRes cRes : Option (List String))
    (ha : aRes ≠ some []) :
    (dnsLookup aRes cRes).resolved
      = (!(dnsLookup aRes cRes).ips.isEmpty || !(dnsLookup aRes cRes).cnames.isEmpty) := by
  cases aRes with
  | none =>
    cases cRes with
    | none => simp [dnsLookup]
    | some l => cases l <;> simp [dnsLookup]
  | some l =>
    cases l with
    | nil => exact absurd rfl ha
    | cons a t => cases cRes with
      | none => simp [dnsLookup]
      | some m => simp [dnsLookup]

/-- C9 witness: a successful non-empty A lookup with a failed CNAME lookup. -/
theorem dnsLookup_resolved_iff_witness :
    (some ["203.0.113.5"] : Option (List String)) ≠ some [] ∧
    (dnsLookup (some ["203.0.113.5"]) none).resolved
      = (!(dnsLookup (some ["203.0.113.5"]) none).ips.isEmpty
          || !(dnsLookup (some ["203.0.113.5"]) none).cnames.isEmpty) :=
  ⟨by decide, dnsLookup_resolved_iff (some ["203.0.113.5"]) none (by decide)⟩

/-- C2 counterexample: a custom domain with no declared network status whose
DNS lookup fails entirely is classified by the refresh pipeline as
`issue`/"DNS not resolving" — not `unknown`/"No status data" as claimed
(within the pipeline every custom domain receives a `DNSResult`, so the
no-result branch is unreachable for it). -/
theorem no_status_data_counterexample :
    ((runPipeline [cInstall] (fun i => if i == "i1" then [cDomain] else [])
        (fun _ => none) (fun _ => none) "t0").sites.map
      (fun s => s.domains.map (fun ed => (ed.name, ed.status, ed.detail))))
      = [[("c.example.com", "issue", "DNS not resolving")]] := by
  decide

/-- C2 (amended): for a custom (non-system) domain of some install with no
declared network status, if every custom domain sharing its id has both the
A-record and the CNAME lookup fail, the refresh pipeline classifies that
domain as `issue` with reason "DNS not resolving" (the pipeline always
supplies a `DNSResult` for custom domains, so the classifier's
`unknown`/"No status data" branch is unreachable for them). -/
theorem pipeline_total_dns_failure_is_issue
    (installs : List Install) (fetchDomains : String → List Domain)
    (aRes cRes : String → Option (List String)) (ts : String)
    (i j : Nat) (inst : Install) (d : Domain)
    (hi : installs[i]? = some inst)
    (hj : (fetchDomains inst.id)[j]? = some d)
    (hsys : isSystemName d.name = false)
    (hns : d.network_status = none)
    (hfail : ∀ d' ∈ allCustomDomainsOf (installDomainsOf installs fetchDomains),
        d'.id = d.id → aRes d'.name = none ∧ cRes d'.name = none) :
    ∃ site ed,
      (runPipeline installs fetchDomains aRes cRes ts).sites[i]? = some site ∧
      site.domains[j]? = some ed ∧
      ed.name = d.name ∧ ed.status = "issue" ∧ ed.detail = "DNS not resolving" := by
  have hsite : (runPipeline installs fetchDomains aRes cRes ts).sites[i]?
      = some (buildSite inst (fetchDomains inst.id)
          (dnsResultsOf (installDomainsOf installs fetchDomains) aRes cRes)
          (allDomainNamesOf (installDomainsOf installs fetchDomains))) := by
    simp only [runPipeline, installDomainsOf, List.map_map, List.getElem?_map, hi,
      Option.map_some']
    rfl
  have hinstmem : inst ∈ installs := by
    obtain ⟨hlt, heq⟩ := List.getElem?_eq_some_iff.mp hi
    exact heq ▸ List.getElem_mem hlt
  have hdmem : d ∈ fetchDomains inst.id := by
    obtain ⟨hlt, heq⟩ := List.getElem?_eq_some_iff.mp hj
    exact heq ▸ List.getElem_mem hlt
  have hmem : d ∈ allCustomDomainsOf (installDomainsOf installs fetchDomains) := by
    unfold allCustomDomainsOf installDomainsOf
    refine List.mem_flatMap.mpr ⟨(inst, fetchDomains inst.id), ?_, ?_⟩
    · exact List.mem_map.mpr ⟨inst, hinstmem, rfl⟩
    · exact List.mem_filter.mpr ⟨hdmem, by simp [hsys]⟩
  have hfind : ((allCustomDomainsOf (installDomainsOf installs fetchDomains)).reverse.find?
      (fun x => x.id == d.id)).isSome := by
    exact List.find?_isSome.mpr ⟨d, List.mem_reverse.mpr hmem, by simp⟩
  obtain ⟨d', hd'⟩ := Option.isSome_iff_exists.mp hfind
  have hd'mem : d' ∈ allCustomDomainsOf (installDomainsOf installs fetchDomains) :=
    List.mem_reverse.mp (List.mem_of_find?_eq_some hd')
  have hdid : d'.id = d.id := by simpa using List.find?_some hd'
  obtain ⟨haf, hcf⟩ := hfail d' hd'mem hdid
  have hres : dnsResultsOf (installDomainsOf installs fetchDomains) aRes cRes d.id
      = some ⟨[], [], false⟩ := by
    simp [dnsResultsOf, hd', haf, hcf, dnsLookup]
  refine ⟨_, enrichDomain d (some ⟨[], [], false⟩) inst.cname
      (allDomainNamesOf (installDomainsOf installs fetchDomains)), hsite, ?_, rfl, ?_, ?_⟩
  · simp only [buildSite, List.getElem?_map, hj, Option.map_some']
    rw [hres]
  · simp [enrichDomain,
      determineDomainStatus_legacy_unresolved d inst.cname _ hsys hns]
  · simp [enrichDomain,
      determineDomainStatus_legacy_unresolved d inst.cname _ hsys hns]

/-- C2 (amended) witness: the single-install, single-domain pipeline with a
resolver that fails both lookups. -/
theorem pipeline_total_dns_failure_is_issue_witness :
    ([cInstall][0]? = some cInstall ∧
     ((fun i => if i == "i1" then [cDomain] else []) cInstall.id)[0]? = some cDomain ∧
     isSystemName cDomain.name = false ∧
     cDomain.network_status = none ∧
     (∀ d' ∈ allCustomDomainsOf (installDomainsOf [cInstall]
          (fun i => if i == "i1" then [cDomain] else [])),
        d'.id = cDomain.id →
          (fun (_ : String) => (none : Option (List String))) d'.name = none ∧
          (fun (_ : String) => (none : Option (List String))) d'.name = none)) ∧
    (∃ site ed,
      (runPipeline [cInstall] (fun i => if i == "i1" then [cDomain] else [])
        (fun _ => none) (fun _ => none) "t0").sites[0]? = some site ∧
      site.domains[0]? = some ed ∧
      ed.name = cDomain.name ∧ ed.status = "issue" ∧ ed.detail = "DNS not resolving") :=
  ⟨⟨by decide, by decide, by decide, by decide, fun d' _ _ => ⟨rfl, rfl⟩⟩,
    pipeline_total_dns_failure_is_issue [cInstall]
      (fun i => if i == "i1" then [cDomain] else [])
      (fun _ => none) (fun _ => none) "t0" 0 0 cInstall cDomain
      (by decide) (by decide) (by decide) (by decide)
      (fun d' _ _ => ⟨rfl, rfl⟩)⟩

/-- C4: for every snapshot and every domain in it classified `issue`, after
`confirm(name)` the projection yields that domain with verdict `confirmed`
and `originalDetail` equal to the pre-confirm reason; after a subsequent
`unconfirm(name)` the projection yields the original domain record exactly —
original `issue` verdict and reason, no residual state.  Both projections are
applied to the *same* stored snapshot (the projection is a pure function and
never mutates or persists into it), so no re-fetch is involved. -/
theorem confirm_project_roundtrip (data : SnapshotData) (s₀ : ConfirmedStore)
    (t : String) (i j : Nat) (site : Site) (d : EnrichedDomain)
    (hi : data.sites[i]? = some site) (hj : site.domains[j]? = some d)
    (hissue : d.status = "issue") :
    ((applyConfirmedOverrides (confirmDomain d.name t s₀) data).sites[i]?.bind
        (fun st => st.domains[j]?))
      = some { d with
          status := "confirmed", originalStatus := some "issue",
          originalDetail := some d.detail, detail := "Confirmed OK",
          confirmedAt := some t } ∧
    ((applyConfirmedOverrides (unconfirmDomain d.name (confirmDomain d.name t s₀))
        data).sites[i]?.bind (fun st => st.domains[j]?))
      = some d := by
  constructor
  · simp only [applyConfirmedOverrides, List.getElem?_map, hi, Option.map_some',
      Option.some_bind, projectSite, List.getElem?_map, hj]
    simp [projectDomain, hissue, lookupConfirmed_confirm_self]
  · simp only [applyConfirmedOverrides, List.getElem?_map, hi, Option.map_some',
      Option.some_bind, projectSite, List.getElem?_map, hj]
    simp [projectDomain, hissue, lookupConfirmed_unconfirm_self]

/-- C4 witness: the round-trip on a one-site, one-issue-domain snapshot. -/
theorem confirm_project_roundtrip_witness :
    (wData.sites[0]? = some wSite ∧ wSite.domains[0]? = some wDomain ∧
      wDomain.status = "issue") ∧
    (((applyConfirmedOverrides (confirmDomain wDomain.name "T" []) wData).sites[0]?.bind
        (fun st => st.domains[0]?))
      = some { wDomain with
          status := "confirmed", originalStatus := some "issue",
          originalDetail := some wDomain.detail, detail := "Confirmed OK",
          confirmedAt := some "T" } ∧
     ((applyConfirmedOverrides (unconfirmDomain wDomain.name
          (confirmDomain wDomain.name "T" [])) wData).sites[0]?.bind
        (fun st => st.domains[0]?))
      = some wDomain) :=
  ⟨⟨by decide, by decide, by decide⟩,
    confirm_project_roundtrip wData [] "T" 0 0 wSite wDomain (by decide) (by decide)
      (by decide)⟩

/-- C6: for two simultaneous `refreshData` calls (each async call runs its
synchronous check-and-set prefix before any other progress, in either order)
and any event-loop interleaving after that, if both callers have returned
then exactly one pipeline execution occurred, the second caller waited for
the in-flight run instead of starting another, and both callers returned the
identical snapshot produced by that single run. -/
theorem triggerRefresh_single_flight {σ : Type} (pipeLen : Nat) (r : σ)
    (c₀ : Option σ) (first : Bool) (sched : List Bool) (ra rb : Option σ)
    (ha : (runFlight pipeLen r (bothStarted pipeLen r c₀ first) sched).taskA
        = .done ra)
    (hb : (runFlight pipeLen r (bothStarted pipeLen r c₀ first) sched).taskB
        = .done rb) :
    ra = rb ∧ ra = some r ∧
    (runFlight pipeLen r (bothStarted pipeLen r c₀ first) sched).execCount = 1 := by
  have hinv := flightInv_runFlight pipeLen r c₀ _ sched
    (flightInv_bothStarted pipeLen r c₀ first)
  rcases hinv with ⟨hexec,
    ⟨_, _, ⟨⟨n, hA⟩, hB⟩ | ⟨⟨n, hB⟩, hA⟩⟩ |
    ⟨_, _, ⟨hA, hB | hB⟩ | ⟨hB, hA | hA⟩⟩⟩ <;>
    simp_all

/-- C6 witness: a concrete two-caller schedule in which caller A runs the
pipeline and caller B polls, then returns the same snapshot. -/
theorem triggerRefresh_single_flight_witness :
    (runFlight 1 (5 : Nat) (bothStarted 1 5 none true) [true, true, false]).taskA
        = TaskState.done (some 5) ∧
    (runFlight 1 (5 : Nat) (bothStarted 1 5 none true) [true, true, false]).taskB
        = TaskState.done (some 5) ∧
    ((some 5 : Option Nat) = some 5 ∧ (some 5 : Option Nat) = some 5 ∧
      (runFlight 1 (5 : Nat) (bothStarted 1 5 none true) [true, true, false]).execCount
        = 1) :=
  ⟨by decide, by decide,
    triggerRefresh_single_flight 1 5 none true [true, true, false] (some 5) (some 5)
      (by decide) (by decide)⟩

end WPEMonitor
